import Mathlib

/-!
Verification of the home_maintenance integration core against its
specification.

The development shallowly embeds the three source files:

* custom_components/home_maintenance/binary_sensor.py — the due-state
  computation (HomeMaintenanceSensor._update_state and its helpers);
* custom_components/home_maintenance/button.py — the double-press
  confirmation state machine (HomeMaintenanceButton.async_press, the
  reset_icon timer callbacks, the icon property, and the cleanup sweeps
  over the module-level _pending_confirmations / _confirmed_tasks /
  _reset_timers tables);
* custom_components/home_maintenance/websocket.py — the
  websocket_update_task handler.

Python dicts keyed by task id are modelled as functions
String → Option _; datetimes are modelled as a calendar date plus a
seconds-of-day component; Python floats are modelled as rationals;
fallible operations return Except/Option and the try/except blocks of
the source are modelled by explicit matches on those results.
-/

/-! ## Calendar model

Dates and datetimes, with the arithmetic used by binary_sensor.py:
timedelta day/week addition and dateutil relativedelta month addition
(which clamps the day to the length of the target month).
-/

/-- A calendar date (year, month 1..12, day 1..31). -/
structure Date where
  year : Int
  month : Nat
  day : Nat
deriving DecidableEq, Repr

/-- A datetime: a date plus seconds since midnight.  Python guarantees
0 ≤ tod < 86400; the model simply carries the component. -/
structure DateTime where
  date : Date
  tod : Nat
deriving DecidableEq, Repr

/-- Gregorian leap-year rule (Python's calendar.isleap). -/
def isLeap (y : Int) : Bool :=
  y % 4 = 0 && (y % 100 ≠ 0 || y % 400 = 0)

/-- Number of days in a month of a given year. -/
def daysInMonth (y : Int) (m : Nat) : Nat :=
  if m = 2 then (if isLeap y then 29 else 28)
  else if m = 4 ∨ m = 6 ∨ m = 9 ∨ m = 11 then 30
  else 31

/-- The calendar successor of a date. -/
def nextDay (d : Date) : Date :=
  if d.day < daysInMonth d.year d.month then ⟨d.year, d.month, d.day + 1⟩
  else if d.month < 12 then ⟨d.year, d.month + 1, 1⟩
  else ⟨d.year + 1, 1, 1⟩

/-- Add n days to a date (datetime + timedelta(days=n), date part). -/
def addDays (d : Date) : Nat → Date
  | 0 => d
  | n + 1 => nextDay (addDays d n)

/-- Add n calendar months to a date with the day clamped to the length
of the target month: the semantics of dateutil relativedelta(months=n)
for a nonnegative n. -/
def addMonths (d : Date) (n : Nat) : Date :=
  let m0 : Nat := d.month - 1 + n
  let y : Int := d.year + (m0 / 12 : Nat)
  let m : Nat := m0 % 12 + 1
  ⟨y, m, min d.day (daysInMonth y m)⟩

/-- Strict calendar order on dates (lexicographic year, month, day). -/
def dateLtB (a b : Date) : Bool :=
  decide (a.year < b.year) ||
    (decide (a.year = b.year) &&
      (decide (a.month < b.month) ||
        (decide (a.month = b.month) && decide (a.day < b.day))))

/-- Order on datetimes, as Python compares datetime objects. -/
def dtLeB (a b : DateTime) : Bool :=
  dateLtB a.date b.date || (decide (a.date = b.date) && decide (a.tod ≤ b.tod))

/-! ## External state values

hass.states.get(entity_id) yields either nothing or a State object
whose .state field is a string ("unknown", "unavailable", a numeric
string, or some other non-numeric string) or None. -/

/-- The .state value of a Home Assistant state object. -/
inductive StateVal where
  | unknown
  | unavailable
  | pynone
  | num (q : Rat)
  | nonNumeric (s : String)
deriving DecidableEq, Repr

/-- Python float(...) applied to a state value: succeeds exactly on a
numeric string, raises ValueError/TypeError otherwise. -/
def pyFloat : StateVal → Except String Rat
  | .num q => .ok q
  | _ => .error "ValueError"

/-- Shared logic of binary_sensor._get_current_odometer (lines 102-114)
and the odometer sampling inside button.async_press (lines 130-140):
resolve the optional odometer_entity reference (Python truthiness: a
missing or empty reference is falsy), look the entity up, reject
unknown/unavailable/None states, and convert with float() inside a
try/except that degrades every conversion error to None. -/
def readEntityFloat (states : String → Option StateVal)
    (entOpt : Option String) : Option Rat :=
  match entOpt with
  | none => none
  | some ent =>
    if ent = "" then none
    else
      match states ent with
      | none => none
      | some sv =>
        match sv with
        | .unknown => none
        | .unavailable => none
        | .pynone => none
        | _ =>
          match pyFloat sv with
          | .ok q => some q
          | .error _ => none

/-! ## Task records

The task dict, per the data model: id, title, interval_value,
interval_type and last_performed are always present; the remaining
fields are optional (absent keys modelled as none). -/

/-- A task record from the store. -/
structure HomeMaintenanceTask where
  id : String
  title : String
  interval_value : Nat
  interval_type : String
  last_performed : String
  last_odometer : Option Rat
  odometer_entity : Option String
  tag_id : Option String
  icon : Option String
  category : Option String
  item_name : Option String
deriving DecidableEq, Repr

/-- The next_due attribute value produced by _update_state: either the
distance marker string "unknown (odometer not available)", a formatted
odometer target (value and unit), the calendar marker string "unknown",
or the ISO string of a (midnight-truncated) datetime. -/
inductive NextDue where
  | odoUnavailable
  | odoVal (target : Rat) (unit : String)
  | unknownDate
  | isoDate (d : DateTime)
deriving DecidableEq, Repr

/-- The extra state attributes written by _update_state.  Option marks
attributes that are only present on some control paths. -/
structure Attrs where
  interval_value : Nat
  interval_type : String
  tag_id : Option String
  last_odometer : Option (Option Rat)
  current_odometer : Option Rat
  next_due_odometer : Option Rat
  next_due : NextDue
  last_performed : String
deriving DecidableEq, Repr

/-- The observable outcome of _update_state: the binary sensor state
(_attr_is_on) and the attribute map. -/
structure SensorOut where
  is_on : Bool
  attrs : Attrs
deriving DecidableEq, Repr

/-- The tag_id attribute is only written when task.get("tag_id") is
truthy (binary_sensor.py lines 128-129). -/
def tagAttr (t : Option String) : Option String :=
  match t with
  | some s => if s = "" then none else some s
  | none => none

/-! ## binary_sensor.py : the due-state computation -/

/-- binary_sensor.py lines 77-90, _calculate_next_due_date: returns
None for km-based intervals, timedelta addition for days/weeks,
relativedelta addition for months, and — for any other interval_type —
falls through and returns last_performed itself. -/
def _calculate_next_due_date (last : DateTime) (interval_value : Nat)
    (interval_type : String) : Option DateTime :=
  if interval_type = "kilometers" ∨ interval_type = "miles" then none
  else if interval_type = "days" then
    some ⟨addDays last.date interval_value, last.tod⟩
  else if interval_type = "weeks" then
    some ⟨addDays last.date (7 * interval_value), last.tod⟩
  else if interval_type = "months" then
    some ⟨addMonths last.date interval_value, last.tod⟩
  else some last

/-- binary_sensor.py lines 92-100, _calculate_next_due_odometer. -/
def _calculate_next_due_odometer (last_odometer : Option Rat)
    (interval_value : Nat) (interval_type : String) : Option Rat :=
  if ¬(interval_type = "kilometers" ∨ interval_type = "miles") then none
  else
    match last_odometer with
    | none => none
    | some lo => some (lo + interval_value)

/-- binary_sensor.py lines 102-114, _get_current_odometer. -/
def _get_current_odometer (states : String → Option StateVal)
    (task : HomeMaintenanceTask) : Option Rat :=
  readEntityFloat states task.odometer_entity

/-- binary_sensor.py lines 116-179, _update_state.  The parse argument
models dt_util.parse_datetime composed with the tz normalization of
lines 165-166 (both library calls external to the repository): it maps
the stored last_performed string to the normalized datetime, or none on
parse failure.  now models dt_util.now().  The result is Except-valued:
the only operation of the method that could raise on the modelled data
is the comparison current_odometer >= next_due_odometer of line 150,
which would be a TypeError if next_due_odometer were None; every other
failure path of the source degrades explicitly. -/
def _update_state (parse : String → Option DateTime)
    (states : String → Option StateVal) (task : HomeMaintenanceTask) (now : DateTime) :
    Except String SensorOut :=
  let interval_value := task.interval_value
  let interval_type := task.interval_type
  let is_km_based : Bool :=
    interval_type = "kilometers" ∨ interval_type = "miles"
  let base : Attrs :=
    { interval_value := interval_value
      interval_type := interval_type
      tag_id := tagAttr task.tag_id
      last_odometer := none
      current_odometer := none
      next_due_odometer := none
      next_due := .unknownDate
      last_performed := "" }
  if is_km_based then
    let last_odometer := task.last_odometer
    let current_odometer := _get_current_odometer states task
    let next_due_odometer :=
      _calculate_next_due_odometer last_odometer interval_value interval_type
    let attrs1 : Attrs :=
      { base with
        last_odometer := some last_odometer
        current_odometer := current_odometer
        next_due_odometer := next_due_odometer
        last_performed := task.last_performed }
    match last_odometer, current_odometer with
    | none, _ =>
      .ok { is_on := false, attrs := { attrs1 with next_due := .odoUnavailable } }
    | _, none =>
      .ok { is_on := false, attrs := { attrs1 with next_due := .odoUnavailable } }
    | some _, some c =>
      match next_due_odometer with
      | none => .error "TypeError"
      | some nd =>
        .ok { is_on := decide (nd ≤ c)
              attrs := { attrs1 with next_due := .odoVal nd interval_type } }
  else
    match parse task.last_performed with
    | none =>
      .ok { is_on := true
            attrs := { base with
              last_performed := task.last_performed
              next_due := .unknownDate } }
    | some last =>
      match _calculate_next_due_date last interval_value interval_type with
      | some dd =>
        let due_mid : DateTime := ⟨dd.date, 0⟩
        .ok { is_on := dtLeB due_mid ⟨now.date, 0⟩
              attrs := { base with
                next_due := .isoDate due_mid
                last_performed := task.last_performed } }
      | none =>
        .ok { is_on := false
              attrs := { base with
                next_due := .unknownDate
                last_performed := task.last_performed } }

/-- Whether an _update_state run completed without raising. -/
def updateOk (e : Except String SensorOut) : Bool :=
  match e with
  | .ok _ => true
  | .error _ => false

/-- The output of a completed _update_state run (junk on the error
case, which updateOk rules out wherever this is used). -/
def updateOut (e : Except String SensorOut) : SensorOut :=
  match e with
  | .ok o => o
  | .error _ =>
    { is_on := false
      attrs :=
        { interval_value := 0, interval_type := "", tag_id := none
          last_odometer := none, current_odometer := none
          next_due_odometer := none, next_due := .unknownDate
          last_performed := "" } }

/-! ## button.py : the double-press confirmation state machine

The module-level tables _pending_confirmations, _confirmed_tasks and
_reset_timers are modelled as functions from task id; call_later timer
handles are modelled as natural numbers allocated from a counter, with
the task id and arm time recorded at arming and a liveness flag that
arming sets, and that cancel() and firing clear (a cancelled or fired
handle can never fire).  The post-commit display timer of lines 151-154
only re-renders the icon and touches none of the tables, so it has no
state-machine effect and is not part of the state. -/

/-- CONFIRMATION_TIMEOUT = timedelta(seconds=5), button.py line 24. -/
def CONFIRMATION_TIMEOUT : Int := 5

/-- CONFIRMED_DISPLAY_TIME = timedelta(seconds=3), button.py line 25. -/
def CONFIRMED_DISPLAY_TIME : Int := 3

/-- The shared mutable state of button.py: the three module-level
tables plus the timer bookkeeping. -/
structure MachineState where
  pending : String → Option Int
  confirmed : String → Option Int
  resetTimers : String → Option Nat
  timerTask : Nat → String
  timerTime : Nat → Int
  timerLive : Nat → Bool
  fresh : Nat

/-- The state before any press: all tables empty, no timer armed. -/
def initState : MachineState :=
  { pending := fun _ => none
    confirmed := fun _ => none
    resetTimers := fun _ => none
    timerTask := fun _ => ""
    timerTime := fun _ => 0
    timerLive := fun _ => false
    fresh := 0 }

/-- Write one key of the _pending_confirmations table. -/
def setPending (s : MachineState) (tid : String) (v : Option Int) :
    MachineState :=
  { s with pending := fun t => if t = tid then v else s.pending t }

/-- Write one key of the _confirmed_tasks table. -/
def setConfirmed (s : MachineState) (tid : String) (v : Option Int) :
    MachineState :=
  { s with confirmed := fun t => if t = tid then v else s.confirmed t }

/-- Write one key of the _reset_timers table. -/
def setResetTimer (s : MachineState) (tid : String) (v : Option Nat) :
    MachineState :=
  { s with resetTimers := fun t => if t = tid then v else s.resetTimers t }

/-- handle.cancel(): the handle can no longer fire. -/
def cancelHandle (s : MachineState) (h : Nat) : MachineState :=
  { s with timerLive := fun h2 => if h2 = h then false else s.timerLive h2 }

/-- The idiom _reset_timers[tid].cancel() without deleting the table
entry (button.py lines 206-207). -/
def cancelTaskTimer (s : MachineState) (tid : String) : MachineState :=
  match s.resetTimers tid with
  | some h => cancelHandle s h
  | none => s

/-- The idiom cancel-then-del on _reset_timers[tid] (button.py lines
118-120 and 160-162). -/
def cancelAndRemoveTimer (s : MachineState) (tid : String) : MachineState :=
  match s.resetTimers tid with
  | some h => setResetTimer (cancelHandle s h) tid none
  | none => s

/-- hass.loop.call_later(CONFIRMATION_TIMEOUT, reset_icon) followed by
_reset_timers[task_id] = timer (button.py lines 181-185 and 210-214):
allocate a fresh live handle recording the task and arm time. -/
def armTimer (s : MachineState) (tid : String) (now : Int) : MachineState :=
  let h := s.fresh
  { pending := s.pending
    confirmed := s.confirmed
    resetTimers := fun t => if t = tid then some h else s.resetTimers t
    timerTask := fun h2 => if h2 = h then tid else s.timerTask h2
    timerTime := fun h2 => if h2 = h then now else s.timerTime h2
    timerLive := fun h2 => if h2 = h then true else s.timerLive h2
    fresh := h + 1 }

/-- The execution environment a press runs in: whether
hass.data[DOMAIN]["store"] resolves, the current entity states, and the
task dict held by the pressed button entity. -/
structure BEnv where
  storePresent : Bool
  states : String → Option StateVal
  taskOf : String → HomeMaintenanceTask

/-- button.py lines 130-140: at commit time, freshly sample the
odometer entity when the task is distance-based, degrading every
failure to None. -/
def sampleOdometer (env : BEnv) (task : HomeMaintenanceTask) : Option Rat :=
  if task.interval_type = "kilometers" ∨ task.interval_type = "miles" then
    readEntityFloat env.states task.odometer_entity
  else none

/-- button.py lines 104-214, async_press before the cleanup sweeps:
the three branches on _pending_confirmations and the press gap.  The
second component is the store.update_last_performed call the branch
makes, if any (task id and performed_odometer argument). -/
def pressCore (env : BEnv) (s : MachineState) (tid : String) (now : Int) :
    MachineState × Option (String × Option Rat) :=
  match s.pending tid with
  | some first_press_time =>
    if now - first_press_time ≤ CONFIRMATION_TIMEOUT then
      let s1 := setPending s tid none
      let s2 := cancelAndRemoveTimer s1 tid
      let s3 := setConfirmed s2 tid (some now)
      if env.storePresent then
        (s3, some (tid, sampleOdometer env (env.taskOf tid)))
      else
        (s3, none)
    else
      let s1 := cancelAndRemoveTimer s tid
      let s2 := setPending s1 tid (some now)
      (armTimer s2 tid now, none)
  | none =>
    let s1 := setPending s tid (some now)
    let s2 := cancelTaskTimer s1 tid
    (armTimer s2 tid now, none)

/-- Whether the sweep of button.py lines 217-222 expires a pending
entry: its first press is more than CONFIRMATION_TIMEOUT old. -/
def pendingExpired (s : MachineState) (now : Int) (tid : String) : Bool :=
  match s.pending tid with
  | some ts => decide (now - ts > CONFIRMATION_TIMEOUT)
  | none => false

/-- button.py lines 216-229: remove every expired pending confirmation
and cancel-and-delete its reset timer.  A handle is cancelled here
exactly when the table entry of the task it was armed for still points
to it and that task's pending entry expired. -/
def sweepPending (s : MachineState) (now : Int) : MachineState :=
  { s with
    pending := fun t => if pendingExpired s now t then none else s.pending t
    resetTimers := fun t =>
      if pendingExpired s now t then none else s.resetTimers t
    timerLive := fun h =>
      if (match s.resetTimers (s.timerTask h) with
          | some h2 => h2 = h && pendingExpired s now (s.timerTask h)
          | none => false) then false
      else s.timerLive h }

/-- button.py lines 231-237: drop confirmed entries older than
CONFIRMED_DISPLAY_TIME. -/
def sweepConfirmed (s : MachineState) (now : Int) : MachineState :=
  { s with
    confirmed := fun t =>
      match s.confirmed t with
      | some ts =>
        if now - ts > CONFIRMED_DISPLAY_TIME then none else some ts
      | none => none }

/-- A full async_press call: the branch logic followed by both cleanup
sweeps. -/
def press (env : BEnv) (s : MachineState) (tid : String) (now : Int) :
    MachineState × Option (String × Option Rat) :=
  let r := pressCore env s tid now
  (sweepConfirmed (sweepPending r.1 now) now, r.2)

/-- A reset_icon timer callback firing (button.py lines 169-178 and
194-203): the handle is spent, and if its task still has a pending
entry, that entry and the task's _reset_timers entry are removed. -/
def fireTimer (s : MachineState) (h : Nat) : MachineState :=
  let tid := s.timerTask h
  let s1 := cancelHandle s h
  match s1.pending tid with
  | some _ =>
    let s2 := setPending s1 tid none
    match s2.resetTimers tid with
    | some _ => setResetTimer s2 tid none
    | none => s2
  | none => s1

/-- The icon property (button.py lines 81-102): returns the indicator
and lazily deletes an expired confirmed entry. -/
def iconRead (s : MachineState) (tid : String) (now : Int) :
    MachineState × String :=
  match s.confirmed tid with
  | some confirmed_time =>
    if now - confirmed_time ≤ CONFIRMED_DISPLAY_TIME then
      (s, "mdi:check-circle")
    else
      let s1 := setConfirmed s tid none
      if (s1.pending tid).isSome then (s1, "mdi:alert-circle")
      else (s1, "mdi:check-circle-outline")
  | none =>
    if (s.pending tid).isSome then (s, "mdi:alert-circle")
    else (s, "mdi:check-circle-outline")

/-! ## Event traces over the confirmation machine -/

/-- The three event sources acting on the shared state: user presses
(which also run the sweeps), reset_icon timer callbacks, and icon
reads. -/
inductive BEvent where
  | press (env : BEnv) (tid : String) (now : Int)
  | fire (h : Nat) (now : Int)
  | iconRead (tid : String) (now : Int)

/-- The state transition of one event (commit calls and rendered icons
are outputs, not state). -/
def stepE (s : MachineState) : BEvent → MachineState
  | .press env tid now => (press env s tid now).1
  | .fire h _ => fireTimer s h
  | .iconRead tid now => (iconRead s tid now).1

/-- Whether an event can occur in a state: presses and icon reads are
always possible; a timer callback fires only if its handle is live (was
armed, not cancelled, not yet fired) and its delay elapsed. -/
def validB (s : MachineState) : BEvent → Bool
  | .press _ _ _ => true
  | .fire h now => s.timerLive h && decide (s.timerTime h + CONFIRMATION_TIMEOUT ≤ now)
  | .iconRead _ _ => true

/-- Whether an event avoids the open ambiguity of a press arriving
while the pressed task's confirmed-display entry is still live. -/
def pressSafeB (s : MachineState) : BEvent → Bool
  | .press _ tid now =>
    match s.confirmed tid with
    | some t => decide (now - t > CONFIRMED_DISPLAY_TIME)
    | none => true
  | _ => true

/-- Run a trace of events. -/
def runE (s : MachineState) : List BEvent → MachineState
  | [] => s
  | e :: es => runE (stepE s e) es

/-- A trace is valid if every event is possible in the state where it
occurs. -/
def validTraceB (s : MachineState) : List BEvent → Bool
  | [] => true
  | e :: es => validB s e && validTraceB (stepE s e) es

/-- A trace is safe if it is valid and no press arrives for a task id
whose confirmed-display entry is still live. -/
def safeTraceB (s : MachineState) : List BEvent → Bool
  | [] => true
  | e :: es => validB s e && pressSafeB s e && safeTraceB (stepE s e) es

/-- The phase-exclusivity invariant: no task id has simultaneously a
pending first press recorded and a confirmed-display entry. -/
def PhaseExclusive (s : MachineState) : Prop :=
  ∀ tid, s.pending tid = none ∨ s.confirmed tid = none

/-! ## websocket.py : the update_task handler -/

/-- A Python value found under the "last_performed" key of the updates
dict: None or a string. -/
inductive PyVal where
  | pynone
  | pystr (s : String)
deriving DecidableEq, Repr

/-- The fields of an update_task websocket message the handler reads.
The registered schema only requires task_id and an arbitrary updates
dict; updatesLastPerformed is the value the updates dict holds under
"last_performed", none when the key is absent.  Other update keys pass
through untouched and are abstracted away. -/
structure UpdateMsg where
  msgId : Nat
  task_id : String
  updatesLastPerformed : Option PyVal
deriving DecidableEq, Repr

/-- What the handler did on the connection: raised an uncaught
KeyError (sending nothing), sent an error, or sent a success result. -/
inductive WsOutcome where
  | keyError
  | errorSent (msgId : Nat) (code : String)
  | resultSent (msgId : Nat)
deriving DecidableEq, Repr

/-- The observable effect of one websocket_update_task call: the
connection outcome and the store.update_task call made, if any (task
id and the normalized last_performed datetime written into the updates
dict). -/
structure WsEffect where
  outcome : WsOutcome
  storeCall : Option (String × DateTime)
deriving DecidableEq, Repr

/-- websocket.py lines 116-144, websocket_update_task.  parse models
dt_util.parse_datetime, asLocal models dt_util.as_local, now models
dt_util.now() (all external library calls).  Line 125 indexes
updates["last_performed"] unconditionally, so a missing key raises
KeyError before anything is sent or stored; a truthy unparsable value
sends invalid_date without storing; otherwise the value (or now) is
normalized to midnight and the store is updated. -/
def websocket_update_task (parse : String → Option DateTime)
    (asLocal : DateTime → DateTime) (now : DateTime) (msg : UpdateMsg) :
    WsEffect :=
  match msg.updatesLastPerformed with
  | none => { outcome := .keyError, storeCall := none }
  | some (.pystr s) =>
    if s = "" then
      { outcome := .resultSent msg.msgId
        storeCall := some (msg.task_id, ⟨now.date, 0⟩) }
    else
      match parse s with
      | none =>
        { outcome := .errorSent msg.msgId "invalid_date", storeCall := none }
      | some parsed =>
        let parsed_local := asLocal parsed
        let last_performed : DateTime := ⟨parsed_local.date, 0⟩
        { outcome := .resultSent msg.msgId
          storeCall := some (msg.task_id, last_performed) }
  | some .pynone =>
    { outcome := .resultSent msg.msgId
      storeCall := some (msg.task_id, ⟨now.date, 0⟩) }

/-- Every last_performed value the handler ever writes to the store is
truncated to midnight. -/
def midnightOnly : Option (String × DateTime) → Prop
  | none => True
  | some (_, d) => d.tod = 0

/-! ## Theorems: the due-state computation -/

/-- C1 counterexample.  The claim says a task with an unrecognized
interval_type always yields isDue = false.  For interval_type "years"
(not one of days/weeks/months/kilometers/miles), last_performed parsing
to 2020-01-01 and now = 2024-06-01, _update_state returns
last_performed as the due date and isDue = true, because
_calculate_next_due_date falls through to return last_performed, which
is then midnight-truncated and compared against today. -/
theorem c1_counterexample :
    ¬("years" = "days" ∨ "years" = "weeks" ∨ "years" = "months" ∨
        "years" = "kilometers" ∨ "years" = "miles") ∧
    (updateOut (_update_state (fun _ => some ⟨⟨2020, 1, 1⟩, 0⟩)
        (fun _ => none)
        ⟨"t1", "Boiler", 1, "years", "2020-01-01T00:00:00",
          none, none, none, none, none, none⟩
        ⟨⟨2024, 6, 1⟩, 3600⟩)).is_on = true := by
  decide

/-- C1 (amended): for every task whose interval_type is not one of
days, weeks, months, kilometers, or miles and whose last_performed
parses, the due-state computation never raises, reports last_performed
truncated to midnight as the next-due value, and sets isDue to
(today's midnight ≥ last_performed's midnight) — so isDue is false only
when last_performed lies in the future, not unconditionally. -/
theorem c1_unrecognized_type_passthrough (parse : String → Option DateTime)
    (states : String → Option StateVal) (task : HomeMaintenanceTask)
    (now : DateTime) (l : DateTime)
    (hty : ¬(task.interval_type = "days" ∨ task.interval_type = "weeks" ∨
        task.interval_type = "months" ∨ task.interval_type = "kilometers" ∨
        task.interval_type = "miles"))
    (hp : parse task.last_performed = some l) :
    updateOk (_update_state parse states task now) = true ∧
    (updateOut (_update_state parse states task now)).attrs.next_due =
      .isoDate ⟨l.date, 0⟩ ∧
    (updateOut (_update_state parse states task now)).is_on =
      dtLeB ⟨l.date, 0⟩ ⟨now.date, 0⟩ ∧
    (updateOut (_update_state parse states task now)).attrs.last_performed =
      task.last_performed := by
  push_neg at hty
  obtain ⟨h1, h2, h3, h4, h5⟩ := hty
  simp [_update_state, _calculate_next_due_date, updateOk, updateOut,
    hp, h1, h2, h3, h4, h5]

/-- C1 witness: a concrete unrecognized-type task run through the
amended theorem. -/
theorem c1_unrecognized_type_passthrough_witness :
    updateOk (_update_state (fun _ => some ⟨⟨2020, 1, 1⟩, 0⟩) (fun _ => none)
      ⟨"t1", "Boiler", 1, "years", "2020-01-01T00:00:00",
        none, none, none, none, none, none⟩ ⟨⟨2024, 6, 1⟩, 3600⟩) = true ∧
    (updateOut (_update_state (fun _ => some ⟨⟨2020, 1, 1⟩, 0⟩) (fun _ => none)
      ⟨"t1", "Boiler", 1, "years", "2020-01-01T00:00:00",
        none, none, none, none, none, none⟩ ⟨⟨2024, 6, 1⟩, 3600⟩)).attrs.next_due =
      .isoDate ⟨⟨2020, 1, 1⟩, 0⟩ ∧
    (updateOut (_update_state (fun _ => some ⟨⟨2020, 1, 1⟩, 0⟩) (fun _ => none)
      ⟨"t1", "Boiler", 1, "years", "2020-01-01T00:00:00",
        none, none, none, none, none, none⟩ ⟨⟨2024, 6, 1⟩, 3600⟩)).is_on =
      dtLeB ⟨⟨2020, 1, 1⟩, 0⟩ ⟨⟨2024, 6, 1⟩, 0⟩ ∧
    (updateOut (_update_state (fun _ => some ⟨⟨2020, 1, 1⟩, 0⟩) (fun _ => none)
      ⟨"t1", "Boiler", 1, "years", "2020-01-01T00:00:00",
        none, none, none, none, none, none⟩ ⟨⟨2024, 6, 1⟩, 3600⟩)).attrs.last_performed =
      "2020-01-01T00:00:00" :=
  c1_unrecognized_type_passthrough (fun _ => some ⟨⟨2020, 1, 1⟩, 0⟩)
    (fun _ => none)
    ⟨"t1", "Boiler", 1, "years", "2020-01-01T00:00:00",
      none, none, none, none, none, none⟩
    ⟨⟨2024, 6, 1⟩, 3600⟩ ⟨⟨2020, 1, 1⟩, 0⟩ (by decide) rfl

/-- C7: for every calendar-based task whose last_performed string fails
to parse, the due-state computation fails open: isDue = true and
next_due is the "unknown" marker (and no fault is raised). -/
theorem c7_unparsable_fails_open (parse : String → Option DateTime)
    (states : String → Option StateVal) (task : HomeMaintenanceTask)
    (now : DateTime)
    (hkm : ¬(task.interval_type = "kilometers" ∨ task.interval_type = "miles"))
    (hp : parse task.last_performed = none) :
    updateOk (_update_state parse states task now) = true ∧
    (updateOut (_update_state parse states task now)).is_on = true ∧
    (updateOut (_update_state parse states task now)).attrs.next_due =
      .unknownDate := by
  simp [_update_state, updateOk, updateOut, hkm, hp]

/-- C7 witness: a concrete days-based task with an unparsable
last_performed. -/
theorem c7_unparsable_fails_open_witness :
    updateOk (_update_state (fun _ => none) (fun _ => none)
      ⟨"t3", "Filter", 30, "days", "not-a-date",
        none, none, none, none, none, none⟩ ⟨⟨2024, 6, 1⟩, 0⟩) = true ∧
    (updateOut (_update_state (fun _ => none) (fun _ => none)
      ⟨"t3", "Filter", 30, "days", "not-a-date",
        none, none, none, none, none, none⟩ ⟨⟨2024, 6, 1⟩, 0⟩)).is_on = true ∧
    (updateOut (_update_state (fun _ => none) (fun _ => none)
      ⟨"t3", "Filter", 30, "days", "not-a-date",
        none, none, none, none, none, none⟩ ⟨⟨2024, 6, 1⟩, 0⟩)).attrs.next_due =
      .unknownDate :=
  c7_unparsable_fails_open (fun _ => none) (fun _ => none)
    ⟨"t3", "Filter", 30, "days", "not-a-date",
      none, none, none, none, none, none⟩ ⟨⟨2024, 6, 1⟩, 0⟩
    (by decide) rfl

/-- C8: a months task whose last_performed parses to 2024-01-31 with
interval_value 1 gets 2024-02-29 (the last valid day of leap-year
February) as its due date — the addition never rolls into March — and
in general relativedelta month addition clamps the day to the length of
the target month. -/
theorem c8_month_clamping (parse : String → Option DateTime)
    (states : String → Option StateVal) (task : HomeMaintenanceTask)
    (now : DateTime) (tod : Nat)
    (hty : task.interval_type = "months")
    (hv : task.interval_value = 1)
    (hp : parse task.last_performed = some ⟨⟨2024, 1, 31⟩, tod⟩) :
    updateOk (_update_state parse states task now) = true ∧
    (updateOut (_update_state parse states task now)).attrs.next_due =
      .isoDate ⟨⟨2024, 2, 29⟩, 0⟩ ∧
    (∀ d n, (addMonths d n).day =
        min d.day (daysInMonth (addMonths d n).year (addMonths d n).month) ∧
      (addMonths d n).day ≤
        daysInMonth (addMonths d n).year (addMonths d n).month) := by
  refine ⟨?_, ?_, ?_⟩
  · simp [_update_state, _calculate_next_due_date, updateOk, hty, hv, hp]
  · simp [_update_state, _calculate_next_due_date, updateOut, hty, hv, hp]
    decide
  · intro d n
    constructor
    · simp [addMonths]
    · simp [addMonths]

/-- C8 witness: the concrete 2024-01-31 months task, via the theorem's
first two conjuncts. -/
theorem c8_month_clamping_witness :
    updateOk (_update_state (fun _ => some ⟨⟨2024, 1, 31⟩, 0⟩) (fun _ => none)
      ⟨"t4", "Descale", 1, "months", "2024-01-31",
        none, none, none, none, none, none⟩ ⟨⟨2024, 2, 15⟩, 0⟩) = true ∧
    (updateOut (_update_state (fun _ => some ⟨⟨2024, 1, 31⟩, 0⟩) (fun _ => none)
      ⟨"t4", "Descale", 1, "months", "2024-01-31",
        none, none, none, none, none, none⟩ ⟨⟨2024, 2, 15⟩, 0⟩)).attrs.next_due =
      .isoDate ⟨⟨2024, 2, 29⟩, 0⟩ :=
  ⟨(c8_month_clamping (fun _ => some ⟨⟨2024, 1, 31⟩, 0⟩) (fun _ => none)
      ⟨"t4", "Descale", 1, "months", "2024-01-31",
        none, none, none, none, none, none⟩ ⟨⟨2024, 2, 15⟩, 0⟩ 0
      rfl rfl rfl).1,
   (c8_month_clamping (fun _ => some ⟨⟨2024, 1, 31⟩, 0⟩) (fun _ => none)
      ⟨"t4", "Descale", 1, "months", "2024-01-31",
        none, none, none, none, none, none⟩ ⟨⟨2024, 2, 15⟩, 0⟩ 0
      rfl rfl rfl).2.1⟩

/-- C4: for every distance-based task, the next_due_odometer attribute
is last_odometer + interval_value when last_odometer is present; isDue
holds exactly when both the stored and the current odometer reading are
present and the current reading has reached the target; and when either
reading is absent the sensor is not due and next_due is the
"unknown (odometer not available)" marker. -/
theorem c4_distance_branch (parse : String → Option DateTime)
    (states : String → Option StateVal) (task : HomeMaintenanceTask)
    (now : DateTime)
    (hkm : task.interval_type = "kilometers" ∨ task.interval_type = "miles") :
    updateOk (_update_state parse states task now) = true ∧
    (updateOut (_update_state parse states task now)).attrs.next_due_odometer =
      (match task.last_odometer with
       | some lo => some (lo + task.interval_value)
       | none => none) ∧
    (updateOut (_update_state parse states task now)).is_on =
      (match task.last_odometer, _get_current_odometer states task with
       | some lo, some c => decide (lo + task.interval_value ≤ c)
       | _, _ => false) ∧
    (match task.last_odometer, _get_current_odometer states task with
     | some _, some _ => True
     | _, _ =>
       (updateOut (_update_state parse states task now)).attrs.next_due =
         .odoUnavailable ∧
       (updateOut (_update_state parse states task now)).is_on = false) := by
  have hkm' : (task.interval_type = "kilometers" ∨
      task.interval_type = "miles") = True := by simp [hkm]
  cases hlo : task.last_odometer with
  | none =>
    cases hc : _get_current_odometer states task with
    | none =>
      simp [_update_state, _calculate_next_due_odometer, updateOk, updateOut,
        hkm', hlo, hc]
    | some c =>
      simp [_update_state, _calculate_next_due_odometer, updateOk, updateOut,
        hkm', hlo, hc]
  | some lo =>
    cases hc : _get_current_odometer states task with
    | none =>
      simp [_update_state, _calculate_next_due_odometer, updateOk, updateOut,
        hkm', hlo, hc]
    | some c =>
      simp [_update_state, _calculate_next_due_odometer, updateOk, updateOut,
        hkm', hlo, hc]

/-- C4 witness: a kilometers task with last_odometer 100, interval 10
and a current reading of 120 is due with target 110. -/
theorem c4_distance_branch_witness :
    updateOk (_update_state (fun _ => none)
      (fun e => if e = "sensor.car" then some (.num 120) else none)
      ⟨"t5", "Oil", 10, "kilometers", "", some 100, some "sensor.car",
        none, none, none, none⟩ ⟨⟨2024, 6, 1⟩, 0⟩) = true ∧
    (updateOut (_update_state (fun _ => none)
      (fun e => if e = "sensor.car" then some (.num 120) else none)
      ⟨"t5", "Oil", 10, "kilometers", "", some 100, some "sensor.car",
        none, none, none, none⟩ ⟨⟨2024, 6, 1⟩, 0⟩)).attrs.next_due_odometer =
      (match (some 100 : Option Rat) with
       | some lo => some (lo + (10 : Nat))
       | none => none) ∧
    (updateOut (_update_state (fun _ => none)
      (fun e => if e = "sensor.car" then some (.num 120) else none)
      ⟨"t5", "Oil", 10, "kilometers", "", some 100, some "sensor.car",
        none, none, none, none⟩ ⟨⟨2024, 6, 1⟩, 0⟩)).is_on =
      (match (some 100 : Option Rat),
          _get_current_odometer
            (fun e => if e = "sensor.car" then some (.num 120) else none)
            ⟨"t5", "Oil", 10, "kilometers", "", some 100, some "sensor.car",
              none, none, none, none⟩ with
       | some lo, some c => decide (lo + (10 : Nat) ≤ c)
       | _, _ => false) ∧
    (match (some 100 : Option Rat),
        _get_current_odometer
          (fun e => if e = "sensor.car" then some (.num 120) else none)
          ⟨"t5", "Oil", 10, "kilometers", "", some 100, some "sensor.car",
            none, none, none, none⟩ with
     | some _, some _ => True
     | _, _ =>
       (updateOut (_update_state (fun _ => none)
         (fun e => if e = "sensor.car" then some (.num 120) else none)
         ⟨"t5", "Oil", 10, "kilometers", "", some 100, some "sensor.car",
           none, none, none, none⟩ ⟨⟨2024, 6, 1⟩, 0⟩)).attrs.next_due =
         .odoUnavailable ∧
       (updateOut (_update_state (fun _ => none)
         (fun e => if e = "sensor.car" then some (.num 120) else none)
         ⟨"t5", "Oil", 10, "kilometers", "", some 100, some "sensor.car",
           none, none, none, none⟩ ⟨⟨2024, 6, 1⟩, 0⟩)).is_on = false) :=
  c4_distance_branch (fun _ => none)
    (fun e => if e = "sensor.car" then some (.num 120) else none)
    ⟨"t5", "Oil", 10, "kilometers", "", some 100, some "sensor.car",
      none, none, none, none⟩ ⟨⟨2024, 6, 1⟩, 0⟩ (Or.inl rfl)

/-- C9: the due-state computation never raises on any task record,
time, parse outcome or odometer-entity state — the single operation
that could raise (the line-150 comparison against a None target) is
unreachable — and the failure cases degrade to the explicit markers:
a distance task with a missing reading is not due with the
odometer-unavailable marker, and a calendar task with an unparsable
date is due with the "unknown" marker. -/
theorem c9_never_raises (parse : String → Option DateTime)
    (states : String → Option StateVal) (task : HomeMaintenanceTask)
    (now : DateTime) :
    updateOk (_update_state parse states task now) = true ∧
    (if task.interval_type = "kilometers" ∨ task.interval_type = "miles" then
      (match task.last_odometer, _get_current_odometer states task with
       | some _, some _ => True
       | _, _ =>
         (updateOut (_update_state parse states task now)).is_on = false ∧
         (updateOut (_update_state parse states task now)).attrs.next_due =
           .odoUnavailable)
     else
      (match parse task.last_performed with
       | none =>
         (updateOut (_update_state parse states task now)).is_on = true ∧
         (updateOut (_update_state parse states task now)).attrs.next_due =
           .unknownDate
       | some _ => True)) := by
  by_cases hkm : task.interval_type = "kilometers" ∨ task.interval_type = "miles"
  · have hkm' : (task.interval_type = "kilometers" ∨
        task.interval_type = "miles") = True := by simp [hkm]
    rw [if_pos hkm]
    rcases hlo : task.last_odometer with _ | lo <;>
      rcases hc : _get_current_odometer states task with _ | c <;>
        simp [_update_state, _calculate_next_due_odometer, updateOk, updateOut,
          hkm', hlo, hc]
  · rw [if_neg hkm]
    cases hp : parse task.last_performed with
    | none => simp [_update_state, updateOk, updateOut, hkm, hp]
    | some l =>
      refine ⟨?_, by simp⟩
      cases hdd : _calculate_next_due_date l task.interval_value
          task.interval_type <;>
        simp [_update_state, updateOk, hkm, hp, hdd]

/-! ## Theorems: the websocket update_task handler -/

/-- C10: an update_task request whose updates dict lacks the
"last_performed" key makes the handler raise an uncaught KeyError
before touching the store, sending neither a result nor an error; and
whenever the handler does reach the store, the last_performed value it
writes has been normalized to midnight. -/
theorem c10_update_requires_last_performed
    (parse : String → Option DateTime) (asLocal : DateTime → DateTime)
    (now : DateTime) (mid : Nat) (tid : String) (upd : Option PyVal) :
    websocket_update_task parse asLocal now ⟨mid, tid, none⟩ =
      ⟨.keyError, none⟩ ∧
    midnightOnly
      (websocket_update_task parse asLocal now ⟨mid, tid, upd⟩).storeCall := by
  constructor
  · rfl
  · rcases upd with _ | v
    · simp [websocket_update_task, midnightOnly]
    · rcases v with _ | s
      · simp [websocket_update_task, midnightOnly]
      · by_cases hs : s = ""
        · simp [websocket_update_task, midnightOnly, hs]
        · cases hp : parse s <;>
            simp [websocket_update_task, midnightOnly, hs, hp]

/-! ## Theorems: the confirmation state machine

Projection lemmas first: the table operations only touch the fields
they are about. -/

@[simp] theorem cancelTaskTimer_pending (s : MachineState) (tid : String) :
    (cancelTaskTimer s tid).pending = s.pending := by
  unfold cancelTaskTimer
  cases s.resetTimers tid <;> rfl

@[simp] theorem cancelTaskTimer_confirmed (s : MachineState) (tid : String) :
    (cancelTaskTimer s tid).confirmed = s.confirmed := by
  unfold cancelTaskTimer
  cases s.resetTimers tid <;> rfl

@[simp] theorem cancelTaskTimer_resetTimers (s : MachineState) (tid : String) :
    (cancelTaskTimer s tid).resetTimers = s.resetTimers := by
  unfold cancelTaskTimer
  cases s.resetTimers tid <;> rfl

@[simp] theorem cancelTaskTimer_timerTask (s : MachineState) (tid : String) :
    (cancelTaskTimer s tid).timerTask = s.timerTask := by
  unfold cancelTaskTimer
  cases s.resetTimers tid <;> rfl

@[simp] theorem cancelTaskTimer_timerTime (s : MachineState) (tid : String) :
    (cancelTaskTimer s tid).timerTime = s.timerTime := by
  unfold cancelTaskTimer
  cases s.resetTimers tid <;> rfl

@[simp] theorem cancelTaskTimer_fresh (s : MachineState) (tid : String) :
    (cancelTaskTimer s tid).fresh = s.fresh := by
  unfold cancelTaskTimer
  cases s.resetTimers tid <;> rfl

@[simp] theorem cancelAndRemoveTimer_pending (s : MachineState) (tid : String) :
    (cancelAndRemoveTimer s tid).pending = s.pending := by
  unfold cancelAndRemoveTimer
  cases s.resetTimers tid <;> rfl

@[simp] theorem cancelAndRemoveTimer_confirmed (s : MachineState)
    (tid : String) :
    (cancelAndRemoveTimer s tid).confirmed = s.confirmed := by
  unfold cancelAndRemoveTimer
  cases s.resetTimers tid <;> rfl

@[simp] theorem cancelAndRemoveTimer_timerTask (s : MachineState)
    (tid : String) :
    (cancelAndRemoveTimer s tid).timerTask = s.timerTask := by
  unfold cancelAndRemoveTimer
  cases s.resetTimers tid <;> rfl

@[simp] theorem cancelAndRemoveTimer_timerTime (s : MachineState)
    (tid : String) :
    (cancelAndRemoveTimer s tid).timerTime = s.timerTime := by
  unfold cancelAndRemoveTimer
  cases s.resetTimers tid <;> rfl

@[simp] theorem cancelAndRemoveTimer_fresh (s : MachineState) (tid : String) :
    (cancelAndRemoveTimer s tid).fresh = s.fresh := by
  unfold cancelAndRemoveTimer
  cases s.resetTimers tid <;> rfl

@[simp] theorem cancelAndRemoveTimer_resetTimers (s : MachineState)
    (tid t : String) :
    (cancelAndRemoveTimer s tid).resetTimers t =
      if t = tid then none else s.resetTimers t := by
  unfold cancelAndRemoveTimer
  cases h : s.resetTimers tid with
  | none =>
    by_cases ht : t = tid <;> simp [ht, h]
  | some hh =>
    simp [setResetTimer, cancelHandle]

/-- C3: a first press at t0 followed by a second press at t1 within
CONFIRMATION_TIMEOUT commits exactly once: the first press makes no
store call, the second makes exactly one update_last_performed call,
whose performed_odometer argument is the odometer sample taken from the
second press's environment (sampleOdometer reads the odometer entity
freshly when interval_type is kilometers or miles, and is None
otherwise). -/
theorem c3_double_press_commits_once (env1 env2 : BEnv) (s : MachineState)
    (tid : String) (t0 t1 : Int)
    (h0 : s.pending tid = none)
    (hgap : t1 - t0 ≤ CONFIRMATION_TIMEOUT)
    (hstore : env2.storePresent = true) :
    (press env1 s tid t0).2 = none ∧
    (press env2 (press env1 s tid t0).1 tid t1).2 =
      some (tid, sampleOdometer env2 (env2.taskOf tid)) := by
  constructor
  · simp [press, pressCore, h0]
  · have hp1 : (press env1 s tid t0).1.pending tid = some t0 := by
      simp [press, pressCore, h0, sweepConfirmed, sweepPending, pendingExpired,
        armTimer, setPending, CONFIRMATION_TIMEOUT]
    generalize (press env1 s tid t0).1 = s1 at hp1 ⊢
    simp [press, pressCore, hp1, hgap, hstore]

/-- C3 witness: presses at times 0 and 2 on a kilometers task with a
live odometer reading; the single commit carries that reading. -/
theorem c3_double_press_commits_once_witness :
    (press ⟨true, fun _ => none,
        fun _ => ⟨"a", "Oil", 10, "kilometers", "", some 100,
          some "sensor.car", none, none, none, none⟩⟩ initState "a" 0).2 =
      none ∧
    (press ⟨true, fun e => if e = "sensor.car" then some (.num 120) else none,
        fun _ => ⟨"a", "Oil", 10, "kilometers", "", some 100,
          some "sensor.car", none, none, none, none⟩⟩
      (press ⟨true, fun _ => none,
          fun _ => ⟨"a", "Oil", 10, "kilometers", "", some 100,
            some "sensor.car", none, none, none, none⟩⟩ initState "a" 0).1
      "a" 2).2 =
      some ("a", sampleOdometer
        ⟨true, fun e => if e = "sensor.car" then some (.num 120) else none,
          fun _ => ⟨"a", "Oil", 10, "kilometers", "", some 100,
            some "sensor.car", none, none, none, none⟩⟩
        (⟨"a", "Oil", 10, "kilometers", "", some 100,
          some "sensor.car", none, none, none, none⟩)) :=
  c3_double_press_commits_once
    ⟨true, fun _ => none,
      fun _ => ⟨"a", "Oil", 10, "kilometers", "", some 100,
        some "sensor.car", none, none, none, none⟩⟩
    ⟨true, fun e => if e = "sensor.car" then some (.num 120) else none,
      fun _ => ⟨"a", "Oil", 10, "kilometers", "", some 100,
        some "sensor.car", none, none, none, none⟩⟩
    initState "a" 0 2 rfl (by decide) rfl

/-- C6: a second press arriving more than CONFIRMATION_TIMEOUT after
the first press (while the pending entry is still present, i.e. before
the timeout timer fired) performs no commit and no store update; it is
recorded as a new first press at the new time, with a freshly armed
live timeout timer for the task, and the icon shows the pending
indicator. -/
theorem c6_stale_second_press_restarts (env : BEnv) (s : MachineState)
    (tid : String) (t0 now : Int)
    (h0 : s.pending tid = some t0)
    (hc : s.confirmed tid = none)
    (hgap : CONFIRMATION_TIMEOUT < now - t0) :
    (press env s tid now).2 = none ∧
    (press env s tid now).1.pending tid = some now ∧
    (press env s tid now).1.resetTimers tid = some s.fresh ∧
    (press env s tid now).1.timerLive s.fresh = true ∧
    (press env s tid now).1.timerTime s.fresh = now ∧
    (press env s tid now).1.timerTask s.fresh = tid ∧
    (iconRead (press env s tid now).1 tid now).2 = "mdi:alert-circle" := by
  have h5 : CONFIRMATION_TIMEOUT = 5 := rfl
  rw [h5] at hgap
  have hgap2 : ¬(now - t0 ≤ 5) := by omega
  have hgap3 : ¬(now ≤ 5 + t0) := by omega
  have hgap4 : ¬(now ≤ t0 + 5) := by omega
  refine ⟨?_, ?_, ?_, ?_, ?_, ?_, ?_⟩ <;>
    simp [press, pressCore, iconRead, h0, hc, hgap2, hgap3, hgap4,
      sweepPending, sweepConfirmed, pendingExpired, armTimer, setPending,
      CONFIRMATION_TIMEOUT, CONFIRMED_DISPLAY_TIME]

/-- C6 witness: first press at 0, second press at 6 with timeout 5. -/
theorem c6_stale_second_press_restarts_witness :
    (press ⟨true, fun _ => none,
        fun _ => ⟨"a", "T", 1, "days", "", none, none, none, none, none,
          none⟩⟩
      (stepE initState
        (.press ⟨true, fun _ => none,
          fun _ => ⟨"a", "T", 1, "days", "", none, none, none, none, none,
            none⟩⟩ "a" 0)) "a" 6).2 = none ∧
    (press ⟨true, fun _ => none,
        fun _ => ⟨"a", "T", 1, "days", "", none, none, none, none, none,
          none⟩⟩
      (stepE initState
        (.press ⟨true, fun _ => none,
          fun _ => ⟨"a", "T", 1, "days", "", none, none, none, none, none,
            none⟩⟩ "a" 0)) "a" 6).1.pending "a" = some 6 ∧
    (press ⟨true, fun _ => none,
        fun _ => ⟨"a", "T", 1, "days", "", none, none, none, none, none,
          none⟩⟩
      (stepE initState
        (.press ⟨true, fun _ => none,
          fun _ => ⟨"a", "T", 1, "days", "", none, none, none, none, none,
            none⟩⟩ "a" 0)) "a" 6).1.resetTimers "a" =
      some (stepE initState
        (.press ⟨true, fun _ => none,
          fun _ => ⟨"a", "T", 1, "days", "", none, none, none, none, none,
            none⟩⟩ "a" 0)).fresh ∧
    (press ⟨true, fun _ => none,
        fun _ => ⟨"a", "T", 1, "days", "", none, none, none, none, none,
          none⟩⟩
      (stepE initState
        (.press ⟨true, fun _ => none,
          fun _ => ⟨"a", "T", 1, "days", "", none, none, none, none, none,
            none⟩⟩ "a" 0)) "a" 6).1.timerLive
      (stepE initState
        (.press ⟨true, fun _ => none,
          fun _ => ⟨"a", "T", 1, "days", "", none, none, none, none, none,
            none⟩⟩ "a" 0)).fresh = true ∧
    (press ⟨true, fun _ => none,
        fun _ => ⟨"a", "T", 1, "days", "", none, none, none, none, none,
          none⟩⟩
      (stepE initState
        (.press ⟨true, fun _ => none,
          fun _ => ⟨"a", "T", 1, "days", "", none, none, none, none, none,
            none⟩⟩ "a" 0)) "a" 6).1.timerTime
      (stepE initState
        (.press ⟨true, fun _ => none,
          fun _ => ⟨"a", "T", 1, "days", "", none, none, none, none, none,
            none⟩⟩ "a" 0)).fresh = 6 ∧
    (press ⟨true, fun _ => none,
        fun _ => ⟨"a", "T", 1, "days", "", none, none, none, none, none,
          none⟩⟩
      (stepE initState
        (.press ⟨true, fun _ => none,
          fun _ => ⟨"a", "T", 1, "days", "", none, none, none, none, none,
            none⟩⟩ "a" 0)) "a" 6).1.timerTask
      (stepE initState
        (.press ⟨true, fun _ => none,
          fun _ => ⟨"a", "T", 1, "days", "", none, none, none, none, none,
            none⟩⟩ "a" 0)).fresh = "a" ∧
    (iconRead
      (press ⟨true, fun _ => none,
          fun _ => ⟨"a", "T", 1, "days", "", none, none, none, none, none,
            none⟩⟩
        (stepE initState
          (.press ⟨true, fun _ => none,
            fun _ => ⟨"a", "T", 1, "days", "", none, none, none, none, none,
              none⟩⟩ "a" 0)) "a" 6).1 "a" 6).2 = "mdi:alert-circle" :=
  c6_stale_second_press_restarts
    ⟨true, fun _ => none,
      fun _ => ⟨"a", "T", 1, "days", "", none, none, none, none, none, none⟩⟩
    (stepE initState
      (.press ⟨true, fun _ => none,
        fun _ => ⟨"a", "T", 1, "days", "", none, none, none, none, none,
          none⟩⟩ "a" 0)) "a" 0 6 (by decide) (by decide) (by decide)

/-- The pending table after the branch logic of a press, pointwise. -/
theorem pressCore_pending (env : BEnv) (s : MachineState) (tid : String)
    (now : Int) (t : String) :
    ((pressCore env s tid now).1).pending t =
      if t = tid then
        (match s.pending tid with
         | some t0 =>
           if now - t0 ≤ CONFIRMATION_TIMEOUT then none else some now
         | none => some now)
      else s.pending t := by
  cases hp : s.pending tid with
  | some t0 =>
    by_cases hsp : env.storePresent = true <;>
      by_cases hle : now - t0 ≤ CONFIRMATION_TIMEOUT <;>
        by_cases ht : t = tid <;>
          simp [pressCore, hp, hsp, hle, ht, armTimer, setPending,
            setConfirmed]
  | none =>
    by_cases ht : t = tid <;>
      simp [pressCore, hp, ht, armTimer, setPending]

/-- The confirmed table after the branch logic of a press, pointwise. -/
theorem pressCore_confirmed (env : BEnv) (s : MachineState) (tid : String)
    (now : Int) (t : String) :
    ((pressCore env s tid now).1).confirmed t =
      if t = tid then
        (match s.pending tid with
         | some t0 =>
           if now - t0 ≤ CONFIRMATION_TIMEOUT then some now else s.confirmed tid
         | none => s.confirmed tid)
      else s.confirmed t := by
  cases hp : s.pending tid with
  | some t0 =>
    by_cases hsp : env.storePresent = true <;>
      by_cases hle : now - t0 ≤ CONFIRMATION_TIMEOUT <;>
        by_cases ht : t = tid <;>
          simp [pressCore, hp, hsp, hle, ht, armTimer, setPending,
            setConfirmed]
  | none =>
    by_cases ht : t = tid <;>
      simp [pressCore, hp, ht, armTimer, setPending]

/-- The pending table after the two sweeps, pointwise. -/
theorem sweeps_pending (s : MachineState) (now : Int) (t : String) :
    (sweepConfirmed (sweepPending s now) now).pending t =
      if pendingExpired s now t then none else s.pending t := rfl

/-- The confirmed table after the two sweeps, pointwise. -/
theorem sweeps_confirmed (s : MachineState) (now : Int) (t : String) :
    (sweepConfirmed (sweepPending s now) now).confirmed t =
      match s.confirmed t with
      | some ts => if now - ts > CONFIRMED_DISPLAY_TIME then none else some ts
      | none => none := rfl

/-- One safe event preserves phase exclusivity. -/
theorem phase_exclusive_step (s : MachineState) (e : BEvent)
    (hInv : PhaseExclusive s) (hsafe : pressSafeB s e = true) :
    PhaseExclusive (stepE s e) := by
  intro t
  cases e with
  | press env tid now =>
    simp only [pressSafeB] at hsafe
    show ((sweepConfirmed (sweepPending (pressCore env s tid now).1 now)
        now).pending t = none) ∨
      ((sweepConfirmed (sweepPending (pressCore env s tid now).1 now)
        now).confirmed t = none)
    rw [sweeps_pending, sweeps_confirmed, pressCore_pending,
      pressCore_confirmed]
    by_cases ht : t = tid
    · subst ht
      cases hp : s.pending t with
      | some t0 =>
        by_cases hle : now - t0 ≤ CONFIRMATION_TIMEOUT
        · left
          simp [hp, hle]
        · right
          cases hc : s.confirmed t with
          | none => simp [hp, hle, hc]
          | some ts =>
            rw [hc] at hsafe
            simp only [decide_eq_true_eq] at hsafe
            simp [hp, hle, hc, hsafe]
      | none =>
        right
        cases hc : s.confirmed t with
        | none => simp [hp, hc]
        | some ts =>
          rw [hc] at hsafe
          simp only [decide_eq_true_eq] at hsafe
          simp [hp, hc, hsafe]
    · rcases hInv t with hpn | hcn
      · left
        simp [ht, hpn, pendingExpired]
      · right
        simp [ht, hcn]
  | fire h now =>
    simp only [stepE, fireTimer]
    cases hp : (cancelHandle s h).pending (s.timerTask h) with
    | some t0 =>
      simp only [hp]
      by_cases ht : t = s.timerTask h
      · left
        cases hrt : (setPending (cancelHandle s h) (s.timerTask h)
            none).resetTimers (s.timerTask h) <;>
          simp [hrt, setResetTimer, setPending, ht]
      · have hcp : (cancelHandle s h).pending t = s.pending t := rfl
        have hcc : (cancelHandle s h).confirmed t = s.confirmed t := rfl
        rcases hInv t with hpn | hcn
        · left
          cases hrt : (setPending (cancelHandle s h) (s.timerTask h)
              none).resetTimers (s.timerTask h) <;>
            simp [hrt, setResetTimer, setPending, ht, hcp, hpn]
        · right
          cases hrt : (setPending (cancelHandle s h) (s.timerTask h)
              none).resetTimers (s.timerTask h) <;>
            simp [hrt, setResetTimer, setPending, ht, hcc, hcn]
    | none =>
      simp only [hp]
      exact hInv t
  | iconRead tid now =>
    simp only [stepE, iconRead]
    cases hc : s.confirmed tid with
    | some t0 =>
      by_cases hle : now - t0 ≤ CONFIRMED_DISPLAY_TIME
      · simpa [hc, hle] using hInv t
      · by_cases ht : t = tid
        · right
          by_cases hpend : (s.pending tid).isSome <;>
            simp [hc, hle, hpend, setConfirmed, ht]
        · rcases hInv t with hpn | hcn
          · left
            by_cases hpend : (s.pending tid).isSome <;>
              simp [hc, hle, hpend, setConfirmed, ht, hpn]
          · right
            by_cases hpend : (s.pending tid).isSome <;>
              simp [hc, hle, hpend, setConfirmed, ht, hcn]
    | none =>
      by_cases hpend : (s.pending tid).isSome <;>
        simpa [hc, hpend] using hInv t

/-- Phase exclusivity propagates along any safe trace from any
exclusive state. -/
theorem phase_exclusive_run (es : List BEvent) (s : MachineState)
    (hInv : PhaseExclusive s) (hsafe : safeTraceB s es = true) :
    PhaseExclusive (runE s es) := by
  induction es generalizing s with
  | nil => exact hInv
  | cons e es ih =>
    simp only [safeTraceB, Bool.and_eq_true] at hsafe
    exact ih (stepE s e)
      (phase_exclusive_step s e hInv hsafe.1.2) hsafe.2

/-- C2 counterexample.  The claim asserts the exclusivity invariant
for every sequence of press events: the valid trace press(a, t=0),
press(a, t=2), press(a, t=3) — a third press arriving while the
confirmed-display entry is still live — ends with task "a"
simultaneously holding a pending first press (recorded at 3) and a
live confirmed-display entry (recorded at 2, within
CONFIRMED_DISPLAY_TIME of the current instant 3). -/
theorem c2_counterexample :
    validTraceB initState
      [.press ⟨true, fun _ => none,
          fun _ => ⟨"a", "T", 1, "days", "", none, none, none, none, none,
            none⟩⟩ "a" 0,
       .press ⟨true, fun _ => none,
          fun _ => ⟨"a", "T", 1, "days", "", none, none, none, none, none,
            none⟩⟩ "a" 2,
       .press ⟨true, fun _ => none,
          fun _ => ⟨"a", "T", 1, "days", "", none, none, none, none, none,
            none⟩⟩ "a" 3] = true ∧
    (runE initState
      [.press ⟨true, fun _ => none,
          fun _ => ⟨"a", "T", 1, "days", "", none, none, none, none, none,
            none⟩⟩ "a" 0,
       .press ⟨true, fun _ => none,
          fun _ => ⟨"a", "T", 1, "days", "", none, none, none, none, none,
            none⟩⟩ "a" 2,
       .press ⟨true, fun _ => none,
          fun _ => ⟨"a", "T", 1, "days", "", none, none, none, none, none,
            none⟩⟩ "a" 3]).pending "a" = some 3 ∧
    (runE initState
      [.press ⟨true, fun _ => none,
          fun _ => ⟨"a", "T", 1, "days", "", none, none, none, none, none,
            none⟩⟩ "a" 0,
       .press ⟨true, fun _ => none,
          fun _ => ⟨"a", "T", 1, "days", "", none, none, none, none, none,
            none⟩⟩ "a" 2,
       .press ⟨true, fun _ => none,
          fun _ => ⟨"a", "T", 1, "days", "", none, none, none, none, none,
            none⟩⟩ "a" 3]).confirmed "a" = some 2 ∧
    ((3 : Int) - 2 ≤ CONFIRMED_DISPLAY_TIME) := by
  refine ⟨by decide, by decide, by decide, by decide⟩

/-- C2 (amended): at every instant, each task id is in at most one
non-Idle confirmation phase for every sequence of press events, timer
firings, and sweeps in which no press arrives for a task id whose
confirmed-display entry is still live; a press during the live
confirmed window records a pending first press while the confirmed
entry persists, putting the id in both phases at once. -/
theorem c2_phase_exclusive (es : List BEvent)
    (hsafe : safeTraceB initState es = true) :
    PhaseExclusive (runE initState es) :=
  phase_exclusive_run es initState (fun _ => Or.inl rfl) hsafe

/-- C2 witness: a safe trace — press at 0, commit at 2, icon read at
10 (clearing the stale confirmed entry), press at 20 — satisfies the
invariant at task "a". -/
theorem c2_phase_exclusive_witness :
    (runE initState
      [.press ⟨true, fun _ => none,
          fun _ => ⟨"a", "T", 1, "days", "", none, none, none, none, none,
            none⟩⟩ "a" 0,
       .press ⟨true, fun _ => none,
          fun _ => ⟨"a", "T", 1, "days", "", none, none, none, none, none,
            none⟩⟩ "a" 2,
       .iconRead "a" 10,
       .press ⟨true, fun _ => none,
          fun _ => ⟨"a", "T", 1, "days", "", none, none, none, none, none,
            none⟩⟩ "a" 20]).pending "a" = none ∨
    (runE initState
      [.press ⟨true, fun _ => none,
          fun _ => ⟨"a", "T", 1, "days", "", none, none, none, none, none,
            none⟩⟩ "a" 0,
       .press ⟨true, fun _ => none,
          fun _ => ⟨"a", "T", 1, "days", "", none, none, none, none, none,
            none⟩⟩ "a" 2,
       .iconRead "a" 10,
       .press ⟨true, fun _ => none,
          fun _ => ⟨"a", "T", 1, "days", "", none, none, none, none, none,
            none⟩⟩ "a" 20]).confirmed "a" = none :=
  c2_phase_exclusive
    [.press ⟨true, fun _ => none,
        fun _ => ⟨"a", "T", 1, "days", "", none, none, none, none, none,
          none⟩⟩ "a" 0,
     .press ⟨true, fun _ => none,
        fun _ => ⟨"a", "T", 1, "days", "", none, none, none, none, none,
          none⟩⟩ "a" 2,
     .iconRead "a" 10,
     .press ⟨true, fun _ => none,
        fun _ => ⟨"a", "T", 1, "days", "", none, none, none, none, none,
          none⟩⟩ "a" 20] (by decide) "a"

/-- Machine states with equal fields are equal. -/
theorem MachineState.extEq (a b : MachineState)
    (h1 : a.pending = b.pending) (h2 : a.confirmed = b.confirmed)
    (h3 : a.resetTimers = b.resetTimers) (h4 : a.timerTask = b.timerTask)
    (h5 : a.timerTime = b.timerTime) (h6 : a.timerLive = b.timerLive)
    (h7 : a.fresh = b.fresh) : a = b := by
  cases a
  cases b
  simp_all

@[simp] theorem cancelTaskTimer_timerLive (s : MachineState) (tid : String)
    (h2 : Nat) :
    (cancelTaskTimer s tid).timerLive h2 =
      match s.resetTimers tid with
      | some hc => if h2 = hc then false else s.timerLive h2
      | none => s.timerLive h2 := by
  unfold cancelTaskTimer
  cases h : s.resetTimers tid <;> simp [cancelHandle, h]

set_option maxHeartbeats 1000000 in
/-- Normal form of the machine state after a press on a task with no
pending entry (the first-press branch of async_press followed by both
cleanup sweeps), with every field written in terms of the pre-press
state. -/
theorem press_first_normal (env : BEnv) (X : MachineState) (tid2 : String)
    (now : Int) (h0 : X.pending tid2 = none) :
    (press env X tid2 now).1 =
      { pending := fun t =>
          if t = tid2 then some now
          else if pendingExpired X now t then none else X.pending t
        confirmed := fun t =>
          match X.confirmed t with
          | some ts =>
            if now - ts > CONFIRMED_DISPLAY_TIME then none else some ts
          | none => none
        resetTimers := fun t =>
          if t = tid2 then some X.fresh
          else if pendingExpired X now t then none else X.resetTimers t
        timerTask := fun h2 =>
          if h2 = X.fresh then tid2 else X.timerTask h2
        timerTime := fun h2 =>
          if h2 = X.fresh then now else X.timerTime h2
        timerLive := fun h2 =>
          if h2 = X.fresh then true
          else
            let base : Bool :=
              match X.resetTimers tid2 with
              | some hc => if h2 = hc then false else X.timerLive h2
              | none => X.timerLive h2
            if X.timerTask h2 = tid2 then base
            else
              match X.resetTimers (X.timerTask h2) with
              | some hh =>
                if hh = h2 && pendingExpired X now (X.timerTask h2) then
                  false
                else base
              | none => base
        fresh := X.fresh + 1 } := by
  simp only [press, pressCore, h0]
  refine MachineState.extEq _ _ ?_ ?_ ?_ ?_ ?_ ?_ ?_
  · funext t
    by_cases ht2 : t = tid2 <;>
      simp [sweepConfirmed, sweepPending, pendingExpired, armTimer,
        setPending, ht2, CONFIRMATION_TIMEOUT]
  · funext t
    simp [sweepConfirmed, sweepPending, armTimer, setPending]
  · funext t
    by_cases ht2 : t = tid2 <;>
      simp [sweepConfirmed, sweepPending, pendingExpired, armTimer,
        setPending, ht2, CONFIRMATION_TIMEOUT]
  · funext h2
    by_cases hf : h2 = X.fresh <;>
      simp [sweepConfirmed, sweepPending, armTimer, setPending, hf]
  · funext h2
    by_cases hf : h2 = X.fresh <;>
      simp [sweepConfirmed, sweepPending, armTimer, setPending, hf]
  · funext h2
    by_cases hf : h2 = X.fresh
    · cases hrt2 : X.resetTimers tid2 <;>
        simp [sweepConfirmed, sweepPending, pendingExpired, armTimer,
          setPending, hf, hrt2, CONFIRMATION_TIMEOUT]
    · have hf2 : ¬(X.fresh = h2) := fun he => hf he.symm
      by_cases htt2 : X.timerTask h2 = tid2
      · cases hrt2 : X.resetTimers tid2 <;>
          simp [sweepConfirmed, sweepPending, pendingExpired, armTimer,
            setPending, hf, hf2, htt2, hrt2, CONFIRMATION_TIMEOUT]
      · cases hres : X.resetTimers (X.timerTask h2) with
        | none =>
          cases hrt2 : X.resetTimers tid2 <;>
            simp [sweepConfirmed, sweepPending, pendingExpired, armTimer,
              setPending, hf, hf2, htt2, hres, hrt2, CONFIRMATION_TIMEOUT]
        | some hh =>
          cases hrt2 : X.resetTimers tid2 <;>
            simp [sweepConfirmed, sweepPending, pendingExpired, armTimer,
              setPending, hf, hf2, htt2, hres, hrt2, CONFIRMATION_TIMEOUT]
  · simp [sweepConfirmed, sweepPending, armTimer, setPending]

set_option maxHeartbeats 1000000 in
/-- C5: for a task id whose pending window has elapsed — a pending
entry from t0 and a live timeout timer h armed at t0, with now - t0
beyond CONFIRMATION_TIMEOUT — timer-driven expiry and the sweep run
during a press on another task are mutually idempotent.  The timer may
fire first and removes the pending entry and timer-table entry; running
the press afterwards produces exactly the state the press alone
produces, so its sweep observes the already-applied reset and performs
no transition on the expired id.  In the other order the press's sweep
performs the reset and cancels the timer, after which the fire event is
no longer possible.  Neither order commits: both press calls return no
store update, and a timer callback never commits. -/
theorem c5_sweep_timer_idempotent (env : BEnv) (s : MachineState)
    (tid tid2 : String) (h : Nat) (t0 now : Int)
    (hp : s.pending tid = some t0)
    (hrt : s.resetTimers tid = some h)
    (htt : s.timerTask h = tid)
    (htm : s.timerTime h = t0)
    (hlv : s.timerLive h = true)
    (hgap : CONFIRMATION_TIMEOUT < now - t0)
    (hp2 : s.pending tid2 = none)
    (hne : tid2 ≠ tid)
    (hh2 : s.resetTimers tid2 ≠ some h)
    (hfr : h ≠ s.fresh) :
    validB s (.fire h now) = true ∧
    (stepE s (.fire h now)).pending tid = none ∧
    (stepE s (.fire h now)).resetTimers tid = none ∧
    stepE (stepE s (.fire h now)) (.press env tid2 now) =
      stepE s (.press env tid2 now) ∧
    validB (stepE s (.press env tid2 now)) (.fire h now) = false ∧
    (press env s tid2 now).2 = none ∧
    (press env (stepE s (.fire h now)) tid2 now).2 = none := by
  have h5const : CONFIRMATION_TIMEOUT = 5 := rfl
  rw [h5const] at hgap
  have hgap' : now - t0 > 5 := hgap
  have hne' : tid ≠ tid2 := Ne.symm hne
  have hcp : (cancelHandle s h).pending tid = some t0 := hp
  have hcrt : (setPending (cancelHandle s h) tid none).resetTimers tid =
      some h := hrt
  have hsf : fireTimer s h =
      setResetTimer (setPending (cancelHandle s h) tid none) tid none := by
    unfold fireTimer
    rw [htt]
    simp only [hcp, hcrt]
  have hFp : ∀ t, (fireTimer s h).pending t =
      if t = tid then none else s.pending t := by
    intro t
    rw [hsf]
    simp [setResetTimer, setPending, cancelHandle]
  have hFc : (fireTimer s h).confirmed = s.confirmed := by
    rw [hsf]
    rfl
  have hFr : ∀ t, (fireTimer s h).resetTimers t =
      if t = tid then none else s.resetTimers t := by
    intro t
    rw [hsf]
    simp [setResetTimer, setPending, cancelHandle]
  have hFtt : (fireTimer s h).timerTask = s.timerTask := by
    rw [hsf]
    rfl
  have hFtm : (fireTimer s h).timerTime = s.timerTime := by
    rw [hsf]
    rfl
  have hFlv : ∀ h2, (fireTimer s h).timerLive h2 =
      if h2 = h then false else s.timerLive h2 := by
    intro h2
    rw [hsf]
    simp [setResetTimer, setPending, cancelHandle]
  have hFfr : (fireTimer s h).fresh = s.fresh := by
    rw [hsf]
    rfl
  have hpF2 : (fireTimer s h).pending tid2 = none := by
    rw [hFp tid2]
    simp [hne, hp2]
  refine ⟨?_, ?_, ?_, ?_, ?_, ?_, ?_⟩
  · simp [validB, hlv, htm]
    omega
  · simpa [stepE] using hFp tid ▸ (by simp : (if tid = tid then none
      else s.pending tid) = none)
  · simpa [stepE] using hFr tid ▸ (by simp : (if tid = tid then none
      else s.resetTimers tid) = none)
  · simp only [stepE]
    rw [press_first_normal env (fireTimer s h) tid2 now hpF2,
      press_first_normal env s tid2 now hp2]
    refine MachineState.extEq _ _ ?_ ?_ ?_ ?_ ?_ ?_ ?_
    · funext t
      by_cases ht2 : t = tid2
      · simp [ht2]
      · by_cases ht : t = tid
        · simp [ht, ht2, pendingExpired, hFp, hne', hp, hgap',
            CONFIRMATION_TIMEOUT]
        · simp [ht, ht2, pendingExpired, hFp]
    · funext t
      simp [hFc]
    · funext t
      by_cases ht2 : t = tid2
      · simp [ht2, hFfr]
      · by_cases ht : t = tid
        · simp [ht, ht2, pendingExpired, hFp, hFr, hne', hp, hgap',
            CONFIRMATION_TIMEOUT]
        · simp [ht, ht2, pendingExpired, hFp, hFr]
    · funext h2
      simp [hFtt, hFfr]
    · funext h2
      simp [hFtm, hFfr]
    · funext h2
      by_cases hf : h2 = s.fresh
      · simp [hf, hFfr]
      · have hrt2F : (fireTimer s h).resetTimers tid2 = s.resetTimers tid2 := by
          rw [hFr tid2]
          simp [hne]
        by_cases hhh : h2 = h
        · subst hhh
          have hmatch : ∀ hc, s.resetTimers tid2 = some hc → ¬(h2 = hc) :=
            fun hc he heq => hh2 (heq ▸ he)
          cases hrt2 : s.resetTimers tid2 with
          | none =>
            simp [hf, hFfr, hFtt, hFr, hFlv, hrt2F, hrt2, htt, hne', hne,
              pendingExpired, hp, hgap', CONFIRMATION_TIMEOUT, hrt]
          | some hc =>
            have hch : ¬(h2 = hc) := hmatch hc hrt2
            simp [hf, hFfr, hFtt, hFr, hFlv, hrt2F, hrt2, htt, hne', hne,
              pendingExpired, hp, hgap', CONFIRMATION_TIMEOUT, hrt, hch]
        · by_cases htt2 : s.timerTask h2 = tid2
          · cases hrt2 : s.resetTimers tid2 <;>
              simp [hf, hFfr, hFtt, hFlv, hrt2F, hrt2, htt2, hhh]
          · by_cases htt3 : s.timerTask h2 = tid
            · have hhne : ¬(h = h2) := fun he => hhh he.symm
              cases hrt2 : s.resetTimers tid2 <;>
                simp [hf, hFfr, hFtt, hFr, hFlv, hrt2F, hrt2, htt2, htt3,
                  hhh, hhne, hrt, hne', hne]
            · have hresF : (fireTimer s h).resetTimers (s.timerTask h2) =
                  s.resetTimers (s.timerTask h2) := by
                rw [hFr]
                simp [htt3]
              have hpendF : ∀ x, pendingExpired (fireTimer s h) x
                  (s.timerTask h2) = pendingExpired s x (s.timerTask h2) := by
                intro x
                simp [pendingExpired, hFp, htt3]
              cases hres : s.resetTimers (s.timerTask h2) <;>
                cases hrt2 : s.resetTimers tid2 <;>
                  simp [hf, hFfr, hFtt, hFlv, hrt2F, hresF, hpendF, hres,
                    hrt2, htt2, htt3, hhh]
    · simp [hFfr]
  · simp only [stepE]
    rw [press_first_normal env s tid2 now hp2]
    simp [validB, hfr, htt, hne', hrt, pendingExpired, hp, hgap',
      CONFIRMATION_TIMEOUT]
  · simp [press, pressCore, hp2]
  · simp [stepE, press, pressCore, hpF2]

/-- C5 witness: task "a" pressed at 0 with timer handle 0 armed, window
elapsed at now = 6, pressing task "b" as the sweeping press. -/
theorem c5_sweep_timer_idempotent_witness :
    validB ⟨fun t => if t = "a" then some 0 else none, fun _ => none,
      fun t => if t = "a" then some 0 else none, fun _ => "a", fun _ => 0,
      fun h2 => h2 == 0, 1⟩ (.fire 0 6) = true ∧
    (stepE ⟨fun t => if t = "a" then some 0 else none, fun _ => none,
      fun t => if t = "a" then some 0 else none, fun _ => "a", fun _ => 0,
      fun h2 => h2 == 0, 1⟩ (.fire 0 6)).pending "a" = none ∧
    validB (stepE ⟨fun t => if t = "a" then some 0 else none, fun _ => none,
      fun t => if t = "a" then some 0 else none, fun _ => "a", fun _ => 0,
      fun h2 => h2 == 0, 1⟩
      (.press ⟨true, fun _ => none,
        fun _ => ⟨"b", "T", 1, "days", "", none, none, none, none, none,
          none⟩⟩ "b" 6)) (.fire 0 6) = false := by
  have hmain := c5_sweep_timer_idempotent
    ⟨true, fun _ => none,
      fun _ => ⟨"b", "T", 1, "days", "", none, none, none, none, none, none⟩⟩
    ⟨fun t => if t = "a" then some 0 else none, fun _ => none,
      fun t => if t = "a" then some 0 else none, fun _ => "a", fun _ => 0,
      fun h2 => h2 == 0, 1⟩
    "a" "b" 0 0 6 (by decide) (by decide) rfl rfl (by decide) (by decide)
    (by decide) (by decide) (by decide) (by decide)
  exact ⟨hmain.1, hmain.2.1, hmain.2.2.2.2.1⟩
